import Mathlib

/-!
Verification development for the credit-gated transformation accounting of the
imagigenie application: a shallow embedding of the server actions
(`updateCredits`, `createTransaction`, the Stripe webhook `POST` route,
`updateImage`, `deleteImage`, `getAllImages`) and of the client transform
handler over an in-memory document store, together with theorems settling the
specification claims about balance non-negativity, purchase idempotency and
atomicity, gating, webhook handling, ownership and pagination.
-/

namespace ImagiGenie

/-- A stored User document (`user.model`): Mongo `_id`, the Clerk identity id,
and the integer credit balance mutated by `updateCredits`. -/
structure User where
  id : String
  clerkId : String
  credits : Int
  deriving Repr, DecidableEq

/-- A stored Image document (`image.model`), restricted to the fields the
claims touch: `_id`, title, transformation type, Cloudinary public id, the
author reference (a User `_id`) and the `updatedAt` timestamp that
`getAllImages` sorts on. -/
structure Image where
  id : String
  title : String
  transformationType : String
  publicId : String
  author : String
  updatedAt : Nat
  deriving Repr, DecidableEq

/-- A stored Transaction document (`transaction.model`): `_id` (minted by the
store), the Stripe checkout-session id, amount, plan, credit delta and the
buyer reference. The wall-clock `createdAt` field plays no part in any claim
and is omitted. -/
structure Transaction where
  id : Nat
  stripeId : String
  amount : Int
  plan : String
  credits : Int
  buyer : String
  deriving Repr, DecidableEq

/-- The persistent MongoDB state: the three collections, plus a counter used
to mint fresh `_id` values for created Transaction documents. -/
structure Store where
  users : List User
  images : List Image
  transactions : List Transaction
  nextId : Nat
  deriving Repr, DecidableEq

/-- The errors thrown by the embedded actions. `handleError` (`lib/utils`) is
modelled as handing the caught error to the caller; it rolls back none of the
writes already made. -/
inductive AppError where
  /-- "User credits update failed" thrown by `updateCredits`. -/
  | creditsUpdateFailed
  /-- "Unauthorized or image not found" thrown by `updateImage`. -/
  | unauthorizedOrNotFound
  /-- Signature verification failure inside `stripe.webhooks.constructEvent`. -/
  | webhookError
  deriving Repr, DecidableEq

/-- Propositional equality of `Except` results is decidable whenever both
component types have decidable equality (used to evaluate the concrete
claim instances). -/
instance {ε α : Type _} [DecidableEq ε] [DecidableEq α] :
    DecidableEq (Except ε α) := fun a b =>
  match a, b with
  | .ok x, .ok y => decidable_of_iff (x = y) (by simp)
  | .ok _, .error _ => .isFalse (by simp)
  | .error _, .ok _ => .isFalse (by simp)
  | .error x, .error y => decidable_of_iff (x = y) (by simp)

/-- `updateCredits(userId, creditFee)` from `user.actions`: a single
`User.findOneAndUpdate({ _id: userId }, { $inc: { credits: creditFee } },
{ new: true })`. The increment is unconditional — no balance is read first and
no non-negativity condition guards the write; when no user matches the id the
action throws "User credits update failed". The store is returned alongside
the result (unchanged on the error path, since nothing matched). -/
def updateCredits (userId : String) (creditFee : Int) (s : Store) :
    Store × Except AppError Int :=
  match s.users.find? (fun u => u.id == userId) with
  | none => (s, .error .creditsUpdateFailed)
  | some u =>
      ({ s with
          users := s.users.map (fun v =>
            if v.id == userId then { v with credits := v.credits + creditFee } else v) },
       .ok (u.credits + creditFee))

/-- The argument object the webhook route passes to `createTransaction`. -/
structure CreateTransactionParams where
  stripeId : String
  amount : Int
  plan : String
  credits : Int
  buyerId : String
  deriving Repr, DecidableEq

/-- `createTransaction` from `transactions.actions`:
`Transaction.create({ ...transaction, buyer: transaction.buyerId })` followed
by `updateCredits(transaction.buyerId, transaction.credits)`. The Transaction
document is persisted first and unconditionally — no lookup of an existing
record with the same `stripeId` precedes it; if `updateCredits` then throws,
the error is caught (`handleError`) but the already-written Transaction stays
in the store. -/
def createTransaction (p : CreateTransactionParams) (s : Store) :
    Store × Except AppError Transaction :=
  let tx : Transaction :=
    { id := s.nextId, stripeId := p.stripeId, amount := p.amount,
      plan := p.plan, credits := p.credits, buyer := p.buyerId }
  let s1 : Store :=
    { s with transactions := s.transactions ++ [tx], nextId := s.nextId + 1 }
  match updateCredits p.buyerId p.credits s1 with
  | (s2, .ok _) => (s2, .ok tx)
  | (s2, .error e) => (s2, .error e)

/-- The payload object of a Stripe event (`event.data.object`): the session
id, `amount_total`, and the metadata fields set by `checkoutCredits`.
`metadata.credits` is held pre-parsed (the route applies
`Number(metadata?.credits) || 0`); an absent field is `none`. -/
structure StripeEventObject where
  id : String
  amount_total : Option Int
  metadata_plan : Option String
  metadata_credits : Option Int
  metadata_buyerId : Option String
  deriving Repr, DecidableEq

/-- A Stripe webhook event: its type string and its payload object. -/
structure StripeEvent where
  type : String
  object : StripeEventObject
  deriving Repr, DecidableEq

/-- An incoming webhook request: the raw body, the `stripe-signature` header
value, and the event the body encodes. -/
structure WebhookRequest where
  body : String
  sig : String
  event : StripeEvent
  deriving Repr, DecidableEq

/-- The signature the Stripe SDK accepts for a given endpoint secret and raw
body. Signature-verification internals live in the Stripe library, outside the
repository; per the spec they are abstracted to "verify or reject", modelled
as comparison against this expected value. -/
def mkSig (secret body : String) : String := secret ++ ":" ++ body

/-- `stripe.webhooks.constructEvent(body, sig, endpointSecret)`: yields the
parsed event when the signature verifies and throws otherwise. -/
def constructEvent (secret : String) (req : WebhookRequest) :
    Except AppError StripeEvent :=
  if req.sig == mkSig secret req.body then .ok req.event else .error .webhookError

/-- The responses the webhook `POST` route can produce: the "Webhook error"
JSON on signature failure, the "OK" JSON issued after `createTransaction`
(carrying whatever that call produced), and the bare empty 200 returned for
every other verified event type. -/
inductive HttpResponse where
  | jsonWebhookError
  | jsonOk (result : Except AppError Transaction)
  | empty200
  deriving Repr, DecidableEq

/-- The Stripe webhook route handler `POST`: verifies the signature via
`constructEvent` (returning the "Webhook error" JSON on failure); on a
`checkout.session.completed` event builds the transaction object
(`amount_total ? amount_total / 100 : 0`, metadata fields defaulted to `""`
and `0`) and calls `createTransaction`; every other verified event type gets
an empty 200 response with nothing written. -/
def POST (secret : String) (req : WebhookRequest) (s : Store) :
    Store × HttpResponse :=
  match constructEvent secret req with
  | .error _ => (s, .jsonWebhookError)
  | .ok event =>
      if event.type == "checkout.session.completed" then
        let o := event.object
        let p : CreateTransactionParams :=
          { stripeId := o.id
            amount := match o.amount_total with | some a => a / 100 | none => 0
            plan := o.metadata_plan.getD ""
            credits := o.metadata_credits.getD 0
            buyerId := o.metadata_buyerId.getD "" }
        let r := createTransaction p s
        (r.1, .jsonOk r.2)
      else
        (s, .empty200)

/-- The client `onTransformHandler` in `TransformationForm`: the only
server-side effect it triggers is an unconditional
`updateCredits(userId, creditFee)` — no balance check precedes the charge.
The `creditFee` constant lives in `src/constants` (not among the provided
sources) and is taken as a parameter here; the form's `Math.abs(creditFee)`
usage shows it is the negative per-transformation fee. -/
def onTransformHandler (fee : Int) (userId : String) (s : Store) :
    Store × Except AppError Int :=
  updateCredits userId fee s

/-- The client-side guard in `TransformationForm`'s render:
`creditBalance < Math.abs(creditFee)` shows the InsufficientCreditsModal. It
is advisory display logic only; nothing server-side re-checks the balance. -/
def insufficientCreditsModalShown (creditBalance fee : Int) : Bool :=
  creditBalance < |fee|

/-- The update payload handed to `updateImage`: the target `_id` plus the new
image data built by the form (the author field is not part of the payload and
is therefore never changed by an update). -/
structure UpdateImageParams where
  id : String
  title : String
  transformationType : String
  publicId : String
  deriving Repr, DecidableEq

/-- `updateImage` from `image.actions`: loads the image by `_id`; when it is
missing or its `author` differs from `userId` it throws "Unauthorized or image
not found" with the store untouched; otherwise `findByIdAndUpdate` writes the
new fields over the stored document. -/
def updateImage (p : UpdateImageParams) (userId : String) (s : Store) :
    Store × Except AppError Image :=
  match s.images.find? (fun i => i.id == p.id) with
  | none => (s, .error .unauthorizedOrNotFound)
  | some img =>
      if img.author == userId then
        let img' : Image :=
          { img with title := p.title,
                     transformationType := p.transformationType,
                     publicId := p.publicId }
        ({ s with
            images := s.images.map (fun i => if i.id == p.id then img' else i) },
         .ok img')
      else (s, .error .unauthorizedOrNotFound)

/-- `deleteImage` from `image.actions`:
`try { connect(); Image.findByIdAndDelete(imageId) } catch { handleError }
finally { redirect('/') }`. It takes no user id and performs no ownership
check; `findByIdAndDelete` on an unmatched id is a no-op; any failure in the
body (modelled by the `dbFail` flag) is caught and then superseded by the
redirect thrown in `finally`, so the caller always observes the redirect.
Returns the resulting store together with the redirect path. -/
def deleteImage (imageId : String) (dbFail : Bool) (s : Store) :
    Store × String :=
  let s' := if dbFail then s
    else { s with images := s.images.filter (fun i => i.id != imageId) }
  (s', "/")

/-- The comparison behind `.sort({ updatedAt: -1 })` in `getAllImages`:
most-recently-updated documents first. -/
def imageDescLe (a b : Image) : Bool := b.updatedAt ≤ a.updatedAt

/-- `getAllImages` from `image.actions`: restricts the collection by the query
(the whole collection when no search query is given, a
`publicId ∈ resourceIds` restriction otherwise — the filter is abstracted to a
predicate parameter), sorts by `updatedAt` descending, applies
`.skip((page - 1) * limit).limit(limit)`, and reports
`totalPage = Math.ceil(totalImages / limit)` (written in its Nat form
`(totalImages + limit - 1) / limit`) together with the overall collection
size (`savedImages`). -/
def getAllImages (limit page : Nat) (query : Image → Bool) (s : Store) :
    List Image × Nat × Nat :=
  let matching := s.images.filter query
  let sorted := matching.mergeSort imageDescLe
  let data := (sorted.drop ((page - 1) * limit)).take limit
  (data, (matching.length + limit - 1) / limit, s.images.length)

/-! ### Concrete fixtures used by the evaluations and witnesses -/

/-- A store holding a single user `u1` with 0 credits. -/
def zeroCreditStore : Store :=
  { users := [{ id := "u1", clerkId := "c1", credits := 0 }],
    images := [], transactions := [], nextId := 0 }

/-- A store holding a single buyer `buyer1` with 0 credits. -/
def buyerStore : Store :=
  { users := [{ id := "buyer1", clerkId := "cb1", credits := 0 }],
    images := [], transactions := [], nextId := 0 }

/-- A confirmed checkout event for session `cs_1` crediting 100 to `buyer1`. -/
def cs1Event : StripeEvent :=
  { type := "checkout.session.completed",
    object := { id := "cs_1", amount_total := some 1000,
                metadata_plan := some "Pro", metadata_credits := some 100,
                metadata_buyerId := some "buyer1" } }

/-- A correctly signed webhook request carrying `cs1Event`. -/
def cs1Request : WebhookRequest :=
  { body := "cs1body", sig := mkSig "whsec" "cs1body", event := cs1Event }

/-! ### Claim theorems -/

/-- C1: the claim says a spend that would push the stored balance below zero
is rejected with InsufficientBalance and leaves the balance unchanged.
Evaluating `updateCredits` at the failing input — user `u1` holds 0 credits
and is charged 1 — shows the unconditional `$inc` succeeds and stores a
balance of -1: the code has no non-negativity guard at all. -/
theorem updateCredits_spend_below_zero_not_rejected :
    (updateCredits "u1" (-1) zeroCreditStore).2 = .ok (-1) ∧
    ((updateCredits "u1" (-1) zeroCreditStore).1.users.map User.credits) = [-1] := by
  decide

/-- C2: the claim says a replayed confirmed-payment event credits nothing
further and at most one Transaction exists per session id. Evaluating the
webhook route at the failing input — the same verified
`checkout.session.completed` event for session `cs_1` (100 credits) delivered
twice — shows two Transaction records with the same `stripeId` and a balance
incremented twice (0 to 200): `createTransaction` never checks for an
existing record. -/
theorem webhook_replay_double_credits :
    ((POST "whsec" cs1Request (POST "whsec" cs1Request buyerStore).1).1.transactions.map
        Transaction.stripeId = ["cs_1", "cs_1"]) ∧
    ((POST "whsec" cs1Request (POST "whsec" cs1Request buyerStore).1).1.users.map
        User.credits = [200]) := by
  decide

/-- C3: the claim says a purchase settlement writes the Transaction record and
the balance increment together or not at all. Evaluating the route at the
failing input — a verified event whose buyer id `nosuchuser` matches no User —
shows the Transaction for session `cs_2` persisted while `updateCredits`
failed and no balance moved: a reachable state with a record but no credit. -/
theorem purchase_settlement_not_atomic :
    ((POST "whsec"
        { body := "b2", sig := mkSig "whsec" "b2",
          event := { type := "checkout.session.completed",
                     object := { id := "cs_2", amount_total := some 1000,
                                 metadata_plan := some "Pro",
                                 metadata_credits := some 100,
                                 metadata_buyerId := some "nosuchuser" } } }
        buyerStore).1.transactions.map Transaction.stripeId = ["cs_2"]) ∧
    ((POST "whsec"
        { body := "b2", sig := mkSig "whsec" "b2",
          event := { type := "checkout.session.completed",
                     object := { id := "cs_2", amount_total := some 1000,
                                 metadata_plan := some "Pro",
                                 metadata_credits := some 100,
                                 metadata_buyerId := some "nosuchuser" } } }
        buyerStore).1.users = buyerStore.users) := by
  decide

/-- C4: the claim says a transformation request from a user whose balance is
below the cost is denied by a server-side check with no mutation. Evaluating
the code at the failing input — `u1` holds 0 credits, the fee is 1 credit —
shows the client modal predicate fires, yet the transform handler still issues
the unconditional server charge: the request is not denied and the stored
balance mutates to -1. No server-side InsufficientCredits gate exists. -/
theorem transform_charge_applied_despite_insufficient_balance :
    insufficientCreditsModalShown 0 (-1) = true ∧
    (onTransformHandler (-1) "u1" zeroCreditStore).2 = .ok (-1) ∧
    ((onTransformHandler (-1) "u1" zeroCreditStore).1.users.map User.credits) = [-1] := by
  decide

/-- C5: the webhook route verifies the event signature before any state
mutation: whenever the `stripe-signature` header does not match the expected
signature for the body, `POST` answers with the "Webhook error" response and
the store is exactly the input store — no Transaction is created and no
balance changes. -/
theorem webhook_invalid_signature_rejected_without_writes
    (secret : String) (req : WebhookRequest) (s : Store)
    (h : req.sig ≠ mkSig secret req.body) :
    POST secret req s = (s, .jsonWebhookError) := by
  simp [POST, constructEvent, beq_iff_eq, h]

/-- C5 witness: a concrete forged-signature request is rejected and the store
is untouched. -/
theorem webhook_invalid_signature_witness :
    POST "whsec" { body := "b", sig := "forged", event := cs1Event } buyerStore
      = (buyerStore, .jsonWebhookError) :=
  webhook_invalid_signature_rejected_without_writes "whsec"
    { body := "b", sig := "forged", event := cs1Event } buyerStore (by decide)

/-- C6: the claim says a verified event with extracted credits ≤ 0 (or an
unresolvable buyer) is rejected with InvalidPurchaseEvent and nothing is
written. Evaluating the route at the failing input — a verified completed
checkout for session `cs_3` carrying no credits metadata, so the extracted
credits value is 0 — shows a Transaction with credits 0 is persisted and the
route answers the "OK" JSON: writes happen and no InvalidPurchaseEvent
rejection exists anywhere in the code. -/
theorem invalid_purchase_event_not_rejected :
    ((POST "whsec"
        { body := "b3", sig := mkSig "whsec" "b3",
          event := { type := "checkout.session.completed",
                     object := { id := "cs_3", amount_total := some 1000,
                                 metadata_plan := some "Pro",
                                 metadata_credits := none,
                                 metadata_buyerId := some "buyer1" } } }
        buyerStore).1.transactions.map Transaction.credits = [0]) ∧
    ((POST "whsec"
        { body := "b3", sig := mkSig "whsec" "b3",
          event := { type := "checkout.session.completed",
                     object := { id := "cs_3", amount_total := some 1000,
                                 metadata_plan := some "Pro",
                                 metadata_credits := none,
                                 metadata_buyerId := some "buyer1" } } }
        buyerStore).2
      = .jsonOk (.ok { id := 0, stripeId := "cs_3", amount := 10, plan := "Pro",
                       credits := 0, buyer := "buyer1" })) := by
  decide

/-- A store in which `alice` owns image `img1`. -/
def aliceImageStore : Store :=
  { users := [{ id := "alice", clerkId := "ca", credits := 5 }],
    images := [{ id := "img1", title := "t", transformationType := "fill",
                 publicId := "p1", author := "alice", updatedAt := 1 }],
    transactions := [], nextId := 0 }

/-- C7: the claim says both update and delete invoked by a non-author return
Unauthorized and leave the image unchanged. Evaluating the code shows the
update half does hold — `updateImage` by `bob` on Alice's image is rejected
with the store untouched — but `deleteImage` accepts no user id at all and
deletes Alice's image unconditionally: no Unauthorized rejection protects
deletion. -/
theorem delete_image_has_no_ownership_check :
    (updateImage { id := "img1", title := "x", transformationType := "fill",
                   publicId := "p1" } "bob" aliceImageStore
      = (aliceImageStore, .error .unauthorizedOrNotFound)) ∧
    (deleteImage "img1" false aliceImageStore).1.images = [] ∧
    (deleteImage "img1" false aliceImageStore).2 = "/" := by
  decide

/-! ### Pagination helper lemmas -/

/-- One step of the Nat ceiling division `(n + k - 1) / k`: for a nonempty
collection it counts one page plus the pages of the rest. -/
theorem ceil_div_succ {n k : Nat} (hk : 0 < k) (hn : 0 < n) :
    (n + k - 1) / k = ((n - k) + k - 1) / k + 1 := by
  rcases le_or_lt n k with h | h
  · have h1 : (n + k - 1) / k = 1 := by
      apply Nat.div_eq_of_lt_le <;> omega
    have h2 : (n - k + k - 1) / k = 0 := Nat.div_eq_of_lt (by omega)
    omega
  · have hsum : n + k - 1 = (n - k + k - 1) + k := by omega
    rw [hsum, Nat.add_div_right _ hk]

/-- The reported page count is the ceiling of `n / k`: it is the least
multiple-of-`k` bound covering all `n` records. -/
theorem ceil_div_spec {n k : Nat} (hk : 0 < k) :
    n ≤ ((n + k - 1) / k) * k ∧ ((n + k - 1) / k) * k < n + k := by
  have h1 : ((n + k - 1) / k) * k + (n + k - 1) % k = n + k - 1 := by
    rw [Nat.mul_comm]; exact Nat.div_add_mod (n + k - 1) k
  have h2 : (n + k - 1) % k < k := Nat.mod_lt _ hk
  generalize ((n + k - 1) / k) * k = M at h1 ⊢
  omega

/-- Splitting a list into consecutive chunks of size `k` — one chunk per page,
`⌈length / k⌉` pages — and joining the chunks reassembles the list exactly. -/
theorem range_chunks {α : Type _} (k : Nat) (hk : 0 < k) :
    ∀ (n : Nat) (l : List α), l.length ≤ n →
      (List.range ((l.length + k - 1) / k)).flatMap
        (fun i => (l.drop (i * k)).take k) = l := by
  intro n
  induction n with
  | zero =>
      intro l hl
      have : l = [] := List.eq_nil_of_length_eq_zero (by omega)
      subst this
      simp
  | succ n ih =>
      intro l hl
      cases l with
      | nil => simp
      | cons a t =>
        have hlen : 0 < (a :: t).length := by simp
        rw [ceil_div_succ hk hlen, List.range_succ_eq_map, List.flatMap_cons,
          List.flatMap_map]
        have harg : ∀ i : Nat, Nat.succ i * k = k + i * k := by
          intro i
          rw [Nat.succ_mul, Nat.add_comm]
        have hfun : ∀ i : Nat,
            (((a :: t).drop (Nat.succ i * k)).take k)
              = ((((a :: t).drop k).drop (i * k)).take k) := by
          intro i
          rw [List.drop_drop, harg i]
        simp only [Nat.zero_mul, List.drop_zero, hfun]
        have hrest := ih ((a :: t).drop k) (by
          simp only [List.length_drop, List.length_cons] at hl ⊢
          omega)
        rw [List.length_drop] at hrest
        rw [hrest, List.take_append_drop]

/-- `imageDescLe` is transitive. -/
theorem imageDescLe_trans :
    ∀ (a b c : Image), imageDescLe a b → imageDescLe b c → imageDescLe a c := by
  intro a b c hab hbc
  simp only [imageDescLe, decide_eq_true_eq] at *
  omega

/-- `imageDescLe` is total. -/
theorem imageDescLe_total : ∀ (a b : Image), imageDescLe a b || imageDescLe b a := by
  intro a b
  simp [imageDescLe, Nat.le_total]

/-- C8: pagination correctness of `getAllImages`. For every store, filter and
positive page size `k`: the reported `totalPage` is the ceiling of the number
of matching images divided by `k` (the least page count whose capacity covers
all matching records); the pages `1 .. totalPage` joined in order are a
permutation of the matching records — every matching record appears exactly
once, no duplicates and no gaps; and the joined pages are ordered by
most-recently-updated (`updatedAt`) descending. -/
theorem getAllImages_pagination (k : Nat) (hk : 0 < k) (q : Image → Bool) (s : Store) :
    ((s.images.filter q).length ≤ (getAllImages k 1 q s).2.1 * k ∧
      (getAllImages k 1 q s).2.1 * k < (s.images.filter q).length + k) ∧
    List.Perm
      ((List.range ((getAllImages k 1 q s).2.1)).flatMap
        (fun i => (getAllImages k (i + 1) q s).1))
      (s.images.filter q) ∧
    List.Pairwise (fun a b : Image => b.updatedAt ≤ a.updatedAt)
      ((List.range ((getAllImages k 1 q s).2.1)).flatMap
        (fun i => (getAllImages k (i + 1) q s).1)) := by
  have hunfold1 : (getAllImages k 1 q s).2.1
      = ((s.images.filter q).length + k - 1) / k := rfl
  have hpage : ∀ i : Nat, (getAllImages k (i + 1) q s).1
      = (((s.images.filter q).mergeSort imageDescLe).drop (i * k)).take k := by
    intro i
    simp [getAllImages]
  have hsorted_len : ((s.images.filter q).mergeSort imageDescLe).length
      = (s.images.filter q).length := List.length_mergeSort _
  have hjoin : (List.range ((getAllImages k 1 q s).2.1)).flatMap
      (fun i => (getAllImages k (i + 1) q s).1)
      = (s.images.filter q).mergeSort imageDescLe := by
    rw [hunfold1]
    simp only [hpage]
    have hchunks := range_chunks k hk
      (((s.images.filter q).mergeSort imageDescLe).length)
      ((s.images.filter q).mergeSort imageDescLe) (Nat.le_refl _)
    rw [hsorted_len] at hchunks
    exact hchunks
  refine ⟨?_, ?_, ?_⟩
  · rw [hunfold1]
    exact ceil_div_spec hk
  · rw [hjoin]
    exact List.mergeSort_perm _ _
  · rw [hjoin]
    have hs := @List.sorted_mergeSort Image imageDescLe
      imageDescLe_trans imageDescLe_total (s.images.filter q)
    exact hs.imp (fun hab => by simpa [imageDescLe] using hab)

/-- The 25-image collection from the spec's pagination example: distinct
`updatedAt` stamps 0..24. -/
def sampleImages : List Image :=
  (List.range 25).map (fun i =>
    { id := toString i, title := "t", transformationType := "fill",
      publicId := "p", author := "alice", updatedAt := i })

/-- A store holding the 25 sample images. -/
def sampleStore : Store :=
  { users := [], images := sampleImages, transactions := [], nextId := 0 }

/-- C8 witness: the spec's own example — 25 matching images with page size 9
report `totalPage = 3`, and pages 1..3 joined are a duplicate-free,
gap-free, descending enumeration of the whole collection. -/
theorem getAllImages_pagination_witness :
    (getAllImages 9 1 (fun _ => true) sampleStore).2.1 = 3 ∧
    (((sampleStore.images.filter (fun _ => true)).length
        ≤ (getAllImages 9 1 (fun _ => true) sampleStore).2.1 * 9 ∧
      (getAllImages 9 1 (fun _ => true) sampleStore).2.1 * 9
        < (sampleStore.images.filter (fun _ => true)).length + 9) ∧
    List.Perm
      ((List.range ((getAllImages 9 1 (fun _ => true) sampleStore).2.1)).flatMap
        (fun i => (getAllImages 9 (i + 1) (fun _ => true) sampleStore).1))
      (sampleStore.images.filter (fun _ => true)) ∧
    List.Pairwise (fun a b : Image => b.updatedAt ≤ a.updatedAt)
      ((List.range ((getAllImages 9 1 (fun _ => true) sampleStore).2.1)).flatMap
        (fun i => (getAllImages 9 (i + 1) (fun _ => true) sampleStore).1))) :=
  ⟨by decide, getAllImages_pagination 9 (by decide) (fun _ => true) sampleStore⟩

/-- C9: `deleteImage` never surfaces an error to its caller: for every image
id, every store, and whether or not the database call fails, the call ends
with the redirect to "/" thrown in `finally`; and when the id matches no
stored image the image collection is left exactly as it was. -/
theorem deleteImage_always_redirects (imageId : String) (dbFail : Bool) (s : Store) :
    (deleteImage imageId dbFail s).2 = "/" ∧
    ((∀ i ∈ s.images, i.id ≠ imageId) → (deleteImage imageId dbFail s).1 = s) := by
  refine ⟨rfl, fun h => ?_⟩
  have hf : s.images.filter (fun i => i.id != imageId) = s.images :=
    List.filter_eq_self.mpr (fun a ha => by
      simp only [bne_iff_ne, ne_eq]
      exact h a ha)
  cases dbFail <;> simp [deleteImage, hf]

/-- C9 witness: deleting an id that matches nothing in a concrete store still
redirects to "/" and leaves the collection unchanged. -/
theorem deleteImage_always_redirects_witness :
    (deleteImage "nope" false aliceImageStore).2 = "/" ∧
    (deleteImage "nope" false aliceImageStore).1 = aliceImageStore :=
  ⟨(deleteImage_always_redirects "nope" false aliceImageStore).1,
   (deleteImage_always_redirects "nope" false aliceImageStore).2 (by decide)⟩

/-- C10: for every signature-verified webhook event whose type is not
`checkout.session.completed`, the route answers the bare empty 200 response
and the store is exactly the input store — no Transaction is created and no
balance changes. -/
theorem webhook_other_events_no_mutation
    (secret : String) (req : WebhookRequest) (s : Store)
    (hsig : req.sig = mkSig secret req.body)
    (htype : req.event.type ≠ "checkout.session.completed") :
    POST secret req s = (s, .empty200) := by
  simp [POST, constructEvent, beq_iff_eq, hsig, htype]

/-- C10 witness: a correctly signed `invoice.paid` event gets the empty 200
response with the store untouched. -/
theorem webhook_other_events_witness :
    POST "whsec"
      { body := "b4", sig := mkSig "whsec" "b4",
        event := { type := "invoice.paid",
                   object := { id := "in_1", amount_total := none,
                               metadata_plan := none, metadata_credits := none,
                               metadata_buyerId := none } } }
      buyerStore = (buyerStore, .empty200) :=
  webhook_other_events_no_mutation "whsec"
    { body := "b4", sig := mkSig "whsec" "b4",
      event := { type := "invoice.paid",
                 object := { id := "in_1", amount_total := none,
                             metadata_plan := none, metadata_credits := none,
                             metadata_buyerId := none } } }
    buyerStore rfl (by decide)

end ImagiGenie
